import Mathlib

/-!
Verification development for the RaAI repository
(src/backend/utils/model_loader.py, src/backend/ingest_rag_docs.py).

The Python modules are shallowly embedded: environment variables become an
explicit `Env` record of optional strings, exceptions become `Except String`,
and the external client constructors (ChatOpenAI, ChatGoogleGenerativeAI,
ChatGroq, GoogleGenerativeAIEmbeddings) become data constructors together with
a failure oracle `fails : Client → Option String` that tells which
construction attempts raise and with which message.
-/

namespace RaAI

/-- The four environment variable slots read by the code.
`none` models an unset variable; `some ""` models a set-but-empty one. -/
structure Env where
  GOOGLE_API_KEY : Option String
  GEMINI_API_KEY : Option String
  GROQ_API_KEY : Option String
  OPENAI_API_KEY : Option String
deriving DecidableEq

/-- Python truthiness of an `Optional[str]`: `None` and `""` are falsy. -/
def truthy : Option String → Bool
  | none => false
  | some s => s ≠ ""

/-- Python `a or b` on optional strings: `a` when truthy, else `b`. -/
def pyOr (a b : Option String) : Option String :=
  if truthy a then a else b

/-- The `self.api_keys` dict built by `ModelLoader._validate_env`
(model_loader.py lines 28-32). -/
structure ApiKeys where
  GOOGLE_API_KEY : Option String
  GROQ_API_KEY : Option String
  OPENAI_API_KEY : Option String
deriving DecidableEq

namespace ModelLoader

/-- model_loader.py lines 24-32: the Google slot is
`os.getenv("GOOGLE_API_KEY") or os.getenv("GEMINI_API_KEY")`. -/
def mkApiKeys (env : Env) : ApiKeys :=
  { GOOGLE_API_KEY := pyOr env.GOOGLE_API_KEY env.GEMINI_API_KEY
    GROQ_API_KEY := env.GROQ_API_KEY
    OPENAI_API_KEY := env.OPENAI_API_KEY }

/-- model_loader.py line 35: `[k for k, v in self.api_keys.items() if v]`,
in dict insertion order GOOGLE, GROQ, OPENAI. -/
def availableProviders (keys : ApiKeys) : List String :=
  (if truthy keys.GOOGLE_API_KEY then ["GOOGLE_API_KEY"] else []) ++
  (if truthy keys.GROQ_API_KEY then ["GROQ_API_KEY"] else []) ++
  (if truthy keys.OPENAI_API_KEY then ["OPENAI_API_KEY"] else [])

/-- The message of the `DocumentPortalException` raised at
model_loader.py lines 40-42. -/
def noKeysMsg : String :=
  "No LLM API keys configured. Please set at least one: GOOGLE_API_KEY, GROQ_API_KEY, or OPENAI_API_KEY"

/-- `ModelLoader._validate_env` (model_loader.py lines 21-44): builds the
api_keys dict, raises when no key is truthy, otherwise records the keys.
A successfully constructed `ModelLoader` instance corresponds to an `.ok`. -/
def validate_env (env : Env) : Except String ApiKeys :=
  let keys := mkApiKeys env
  if availableProviders keys = [] then .error noKeysMsg else .ok keys

/-- `GoogleGenerativeAIEmbeddings(model=model_name)` as data. -/
structure Embeddings where
  model : String
deriving DecidableEq

/-- `ModelLoader.load_embeddings` (model_loader.py lines 47-60).
`constructFails e = some msg` models the external constructor raising with
message `msg`; the missing-key `ValueError` and any construction error are
both caught by the `except` clause and re-raised as a
`DocumentPortalException` with the "Failed to load embedding model: " prefix.
`model_name` is `self.config["embedding_model"]["model_name"]`. -/
def load_embeddings (constructFails : Embeddings → Option String)
    (model_name : String) (keys : ApiKeys) : Except String Embeddings :=
  if truthy keys.GOOGLE_API_KEY = false then
    .error ("Failed to load embedding model: " ++
      "GOOGLE_API_KEY not found. Embeddings require Google Gemini API.")
  else
    match constructFails { model := model_name } with
    | none => .ok { model := model_name }
    | some e => .error ("Failed to load embedding model: " ++ e)

/-- One entry of `self.config["llm"]` (fields read at
model_loader.py lines 88-91, with `.get` defaults 0.2 and 2048). -/
structure LlmConfig where
  provider : Option String
  model_name : Option String
  temperature : Option ℚ
  max_output_tokens : Option ℕ
deriving DecidableEq

/-- The three client classes constructed by `load_llm`, as data. -/
inductive LLMClient where
  | chatOpenAI (model : Option String) (temperature : ℚ) (max_tokens : ℕ)
  | chatGoogleGenerativeAI (model : Option String) (temperature : ℚ) (max_output_tokens : ℕ)
  | chatGroq (model : Option String) (temperature : ℚ)
deriving DecidableEq

/-- The client the body of the `try` block (model_loader.py lines 87-119)
would construct from one config entry. `none` when the entry's `provider`
string matches no branch, in which case the loop body just falls through
(no return, no exception, `last_error` untouched). -/
def mkAttempt (cfg : LlmConfig) : Option LLMClient :=
  let temperature := cfg.temperature.getD (2/10)
  let max_tokens := cfg.max_output_tokens.getD 2048
  if cfg.provider = some "openai" then
    some (.chatOpenAI cfg.model_name temperature max_tokens)
  else if cfg.provider = some "google" then
    some (.chatGoogleGenerativeAI cfg.model_name temperature max_tokens)
  else if cfg.provider = some "groq" then
    some (.chatGroq cfg.model_name temperature)
  else none

/-- The construction attempted for candidate `pk`: `none` when `pk` has no
config entry (the `continue` at model_loader.py lines 84-85) or the entry's
provider string is unrecognised. -/
def attemptOf (llm_block : String → Option LlmConfig) (pk : String) : Option LLMClient :=
  (llm_block pk).bind mkAttempt

/-- `provider_priority` built at model_loader.py lines 68-74:
OpenAI first, then Google, then Groq, keeping only truthy keys. -/
def provider_priority (keys : ApiKeys) : List String :=
  (if truthy keys.OPENAI_API_KEY then ["openai"] else []) ++
  (if truthy keys.GOOGLE_API_KEY then ["google"] else []) ++
  (if truthy keys.GROQ_API_KEY then ["groq"] else [])

/-- Python `str(x)` for the `Optional` `last_error`. -/
def pyStr : Option String → String
  | none => "None"
  | some s => s

/-- The message of the `DocumentPortalException` raised at
model_loader.py line 128 after the loop exhausts all candidates. -/
def allFailedMsg (last_error : Option String) : String :=
  "Could not load any LLM provider. Last error: " ++ pyStr last_error

/-- The provider loop of `load_llm` (model_loader.py lines 81-128).
`fails c = some msg` models the client constructor raising with message
`msg`; the `except` clause records it in `last_error` and continues. -/
def tryProviders (fails : LLMClient → Option String)
    (llm_block : String → Option LlmConfig) :
    List String → Option String → Except String LLMClient
  | [], last_error => .error (allFailedMsg last_error)
  | pk :: rest, last_error =>
    match attemptOf llm_block pk with
    | none => tryProviders fails llm_block rest last_error
    | some c =>
      match fails c with
      | none => .ok c
      | some e => tryProviders fails llm_block rest (some e)

/-- `ModelLoader.load_llm` (model_loader.py lines 62-128). -/
def load_llm (fails : LLMClient → Option String)
    (llm_block : String → Option LlmConfig) (keys : ApiKeys) :
    Except String LLMClient :=
  if provider_priority keys = [] then .error "No LLM API keys configured"
  else tryProviders fails llm_block (provider_priority keys) none

/-- The candidates whose construction the loop actually attempts, in order
(stopping after the first success). Specification helper for `load_llm`. -/
def attemptedKeys (fails : LLMClient → Option String)
    (llm_block : String → Option LlmConfig) : List String → List String
  | [] => []
  | pk :: rest =>
    match attemptOf llm_block pk with
    | none => attemptedKeys fails llm_block rest
    | some c =>
      match fails c with
      | none => [pk]
      | some _ => pk :: attemptedKeys fails llm_block rest

/-- The first candidate client whose construction succeeds
(specification-style description of what `load_llm` should return). -/
def firstSuccess (fails : LLMClient → Option String)
    (llm_block : String → Option LlmConfig) : List String → Option LLMClient
  | [] => none
  | pk :: rest =>
    match attemptOf llm_block pk with
    | none => firstSuccess fails llm_block rest
    | some c =>
      match fails c with
      | none => some c
      | some _ => firstSuccess fails llm_block rest

/-- The value of the loop's `last_error` variable after the traversal:
the error of the last failing construction attempt, or the initial value
when nothing was attempted; `none` marks an early successful return. -/
def finalError (fails : LLMClient → Option String)
    (llm_block : String → Option LlmConfig) :
    List String → Option String → Option String
  | [], last_error => last_error
  | pk :: rest, last_error =>
    match attemptOf llm_block pk with
    | none => finalError fails llm_block rest last_error
    | some c =>
      match fails c with
      | none => none
      | some e => finalError fails llm_block rest (some e)

/-- The credential slot of `self.api_keys` consulted for a candidate name. -/
def credentialFor (keys : ApiKeys) : String → Option String
  | "openai" => keys.OPENAI_API_KEY
  | "google" => keys.GOOGLE_API_KEY
  | "groq" => keys.GROQ_API_KEY
  | _ => none

end ModelLoader

/-! ## Ingestion routine (src/backend/ingest_rag_docs.py) -/

/-- A langchain `Document`: page text plus the metadata fields the script
reads or writes. Text is a `List Char` so that length-based splitting is
directly executable. -/
structure Doc where
  content : List Char
  source_file : Option String
  source_path : Option String
deriving DecidableEq

/-- Modelled from the spec: `RecursiveCharacterTextSplitter` is an external
collaborator whose source is not part of this repository; the spec describes
its effect as deterministic, length-based splitting into chunks bounded by
`chunk_size` characters with a fixed `chunk_overlap`-character overlap
between neighbours. The fuel argument (initialised to the text length)
guarantees termination for arbitrary `size`/`step`. -/
def splitTextFuel (size step : Nat) : Nat → List Char → List (List Char)
  | 0, t => [t]
  | fuel + 1, t =>
    if t.length ≤ size then [t]
    else t.take size :: splitTextFuel size step fuel (t.drop step)

/-- Modelled from the spec: split one text into chunks of at most `size`
characters, consecutive chunks overlapping in `overlap` characters
(stride `size - overlap`). -/
def splitText (size overlap : Nat) (t : List Char) : List (List Char) :=
  splitTextFuel size (size - overlap) t.length t

/-- `splitter.split_documents(all_documents)` (ingest_rag_docs.py lines
131-136): each page document is split on its own and every chunk inherits
the parent page's metadata. -/
def split_documents (size overlap : Nat) (ds : List Doc) : List Doc :=
  ds.flatMap (fun d => (splitText size overlap d.content).map
    (fun c => { d with content := c }))

/-- The metadata tagging at ingest_rag_docs.py lines 107-109:
`source_file` is the file name, `source_path` the stringified path. -/
def tagDocs (path fname : String) (ds : List Doc) : List Doc :=
  ds.map fun d => { d with source_file := some fname, source_path := some path }

/-- The PDF loading loop (ingest_rag_docs.py lines 98-118):
`loadPdf p = .ok ds` models `PyPDFLoader(p).load()` returning one document
per page, `.error e` models it raising; a failing file is logged and
skipped (`continue`) and processing goes on with the remaining files. -/
def loadAll (loadPdf : String → Except String (List Doc)) (docs_dir : String) :
    List String → List Doc
  | [] => []
  | f :: rest =>
    (match loadPdf (docs_dir ++ "/" ++ f) with
     | .ok ds => tagDocs (docs_dir ++ "/" ++ f) f ds
     | .error _ => []) ++ loadAll loadPdf docs_dir rest

/-- The parts of the filesystem the script observes and mutates:
whether the source directory exists, which `*.pdf` file names it contains,
the persisted FAISS index contents (`none` when `index.faiss` is absent,
modelled from the spec as the list of chunk records it stores), and whether
the vectorstore directory exists. -/
structure FS where
  docsDirExists : Bool
  pdfFiles : List String
  storedIndex : Option (List Doc)
  vsDirExists : Bool
deriving DecidableEq

/-- The counts printed in the final summary (ingest_rag_docs.py lines 174-183). -/
structure Summary where
  pdfCount : Nat
  totalPages : Nat
  chunkCount : Nat
deriving DecidableEq

/-- How a run of the script ends: `sys.exit(code)` or normal completion. -/
inductive RunOutcome where
  | exited (code : Nat)
  | completed (s : Summary)
deriving DecidableEq

/-- `ingest_documents` (ingest_rag_docs.py lines 29-185). Parameters model
the external collaborators: `loadPdf` the PDF parser, `embedFails` the
embedding constructor failure oracle (fed to `ModelLoader.load_embeddings`),
`embedding_model_name` the config entry, `faissFail` whether the FAISS
build/load/save block raises. The FAISS index itself is modelled from the
spec as the list of chunk records it stores: `from_documents` builds it from
the chunks, `load_local` reads the stored list, `add_documents` appends, and
`save_local` overwrites `FS.storedIndex` with the whole in-memory index. -/
def ingest_documents (env : Env) (loadPdf : String → Except String (List Doc))
    (embedFails : ModelLoader.Embeddings → Option String)
    (embedding_model_name : String) (faissFail : Bool) (docs_dir : String)
    (chunk_size chunk_overlap : Nat) (fs : FS) : RunOutcome × FS :=
  if (truthy env.GOOGLE_API_KEY || truthy env.GEMINI_API_KEY) = false then
    (.exited 1, fs)
  else if fs.docsDirExists = false then (.exited 1, fs)
  else if fs.pdfFiles = [] then (.exited 1, fs)
  else
    match (ModelLoader.validate_env env).bind
        (ModelLoader.load_embeddings embedFails embedding_model_name) with
    | .error _ => (.exited 1, fs)
    | .ok _ =>
      let all_documents := loadAll loadPdf docs_dir fs.pdfFiles
      if all_documents = [] then (.exited 1, fs)
      else
        let chunks := split_documents chunk_size chunk_overlap all_documents
        let fs1 : FS := { fs with vsDirExists := true }
        if faissFail then (.exited 1, fs1)
        else
          let newIndex := match fs.storedIndex with
            | some existing => existing ++ chunks
            | none => chunks
          (.completed { pdfCount := fs.pdfFiles.length,
                        totalPages := all_documents.length,
                        chunkCount := chunks.length },
           { fs1 with storedIndex := some newIndex })

/-! ## Concrete fixtures used to instantiate the theorems -/

/-- A credential set with OpenAI and Google keys (and no Groq key). -/
def wKeys : ApiKeys :=
  { GOOGLE_API_KEY := some "g", GROQ_API_KEY := none, OPENAI_API_KEY := some "o" }

/-- A credential set with only a Groq key. -/
def wKeysGroq : ApiKeys :=
  { GOOGLE_API_KEY := none, GROQ_API_KEY := some "q", OPENAI_API_KEY := none }

/-- An OpenAI config entry. -/
def wCfgO : ModelLoader.LlmConfig :=
  { provider := some "openai", model_name := some "gpt-4o-mini",
    temperature := none, max_output_tokens := none }

/-- A Google config entry. -/
def wCfgG : ModelLoader.LlmConfig :=
  { provider := some "google", model_name := some "gemini-2.0-flash",
    temperature := none, max_output_tokens := none }

/-- A Groq config entry. -/
def wCfgQ : ModelLoader.LlmConfig :=
  { provider := some "groq", model_name := some "llama-3.1-8b-instant",
    temperature := none, max_output_tokens := none }

/-- A `config["llm"]` block holding all three provider entries. -/
def wBlock : String → Option ModelLoader.LlmConfig := fun pk =>
  if pk = "openai" then some wCfgO
  else if pk = "google" then some wCfgG
  else if pk = "groq" then some wCfgQ
  else none

/-- Failure oracle: every construction succeeds. -/
def wFailsNone : ModelLoader.LLMClient → Option String := fun _ => none

/-- Failure oracle: only the ChatOpenAI constructor raises. -/
def wFailsOpenAI : ModelLoader.LLMClient → Option String := fun c =>
  match c with
  | .chatOpenAI _ _ _ => some "invalid model"
  | _ => none

/-- Failure oracle: every construction raises. -/
def wFailsAll : ModelLoader.LLMClient → Option String := fun _ => some "boom"

/-- An environment holding only the Gemini alias key. -/
def wEnvGoogle : Env :=
  { GOOGLE_API_KEY := none, GEMINI_API_KEY := some "k",
    GROQ_API_KEY := none, OPENAI_API_KEY := none }

/-- The empty environment: no credential is set. -/
def wEnvEmpty : Env :=
  { GOOGLE_API_KEY := none, GEMINI_API_KEY := none,
    GROQ_API_KEY := none, OPENAI_API_KEY := none }

/-- A PDF page of 801 characters. -/
def cxPageA : Doc :=
  { content := List.replicate 801 'a', source_file := none, source_path := none }

/-- A PDF page of 100 characters. -/
def cxPageB : Doc :=
  { content := List.replicate 100 'a', source_file := none, source_path := none }

/-- An environment with a Google key, as the ingestion script requires. -/
def cxEnv : Env :=
  { GOOGLE_API_KEY := some "k", GEMINI_API_KEY := none,
    GROQ_API_KEY := none, OPENAI_API_KEY := none }

/-- A source directory holding a single PDF file and no persisted index. -/
def cxFS : FS :=
  { docsDirExists := true, pdfFiles := ["doc.pdf"],
    storedIndex := none, vsDirExists := false }

/-- A tiny two-character page. -/
def smallDoc : Doc := { content := ['h', 'i'], source_file := none, source_path := none }

/-- A source directory holding a single PDF file `a.pdf` and no index. -/
def smallFS : FS :=
  { docsDirExists := true, pdfFiles := ["a.pdf"],
    storedIndex := none, vsDirExists := false }

/-- The chunk record produced from `smallDoc` once tagged with `a.pdf`. -/
def smallChunk : Doc :=
  { content := ['h', 'i'], source_file := some "a.pdf",
    source_path := some "data/rag_docs/a.pdf" }

/-- The filesystem after a successful one-page run over `smallFS`. -/
def smallOut : FS :=
  { docsDirExists := true, pdfFiles := ["a.pdf"],
    storedIndex := some [smallChunk], vsDirExists := true }

/-- The filesystem after a successful three-page run over `smallFS`. -/
def smallOut3 : FS :=
  { docsDirExists := true, pdfFiles := ["a.pdf"],
    storedIndex := some [smallChunk, smallChunk, smallChunk], vsDirExists := true }

/-- A missing source directory. -/
def noDirFS : FS :=
  { docsDirExists := false, pdfFiles := [],
    storedIndex := none, vsDirExists := false }

/-! ## Helper lemmas about the provider loop -/

namespace ModelLoader

theorem tryProviders_ok_iff (fails : LLMClient → Option String)
    (llm_block : String → Option LlmConfig) :
    ∀ (l : List String) (last_error : Option String) (c : LLMClient),
      tryProviders fails llm_block l last_error = .ok c ↔
        firstSuccess fails llm_block l = some c := by
  intro l
  induction l with
  | nil => intro last_error c; simp [tryProviders, firstSuccess]
  | cons pk rest ih =>
    intro last_error c
    cases h : attemptOf llm_block pk with
    | none => simp only [tryProviders, firstSuccess, h]; exact ih last_error c
    | some cl =>
      cases hf : fails cl with
      | none => simp [tryProviders, firstSuccess, h, hf]
      | some e => simp only [tryProviders, firstSuccess, h, hf]; exact ih (some e) c

theorem attemptedKeys_sublist (fails : LLMClient → Option String)
    (llm_block : String → Option LlmConfig) :
    ∀ l : List String, List.Sublist (attemptedKeys fails llm_block l) l := by
  intro l
  induction l with
  | nil => simp [attemptedKeys]
  | cons pk rest ih =>
    cases h : attemptOf llm_block pk with
    | none => simp only [attemptedKeys, h]; exact ih.cons pk
    | some cl =>
      cases hf : fails cl with
      | none => simp [attemptedKeys, h, hf]
      | some e => simp only [attemptedKeys, h, hf]; exact ih.cons₂ pk

theorem attemptedKeys_mem_config (fails : LLMClient → Option String)
    (llm_block : String → Option LlmConfig) :
    ∀ (l : List String) (pk : String), pk ∈ attemptedKeys fails llm_block l →
      (llm_block pk).isSome = true := by
  intro l
  induction l with
  | nil => intro pk h; simp [attemptedKeys] at h
  | cons pk0 rest ih =>
    intro pk h
    cases hat : attemptOf llm_block pk0 with
    | none =>
      simp only [attemptedKeys, hat] at h
      exact ih pk h
    | some cl =>
      have hsome : (llm_block pk0).isSome = true := by
        unfold attemptOf at hat
        cases hb : llm_block pk0 with
        | none => rw [hb] at hat; simp at hat
        | some cfg => simp
      cases hf : fails cl with
      | none =>
        simp only [attemptedKeys, hat, hf, List.mem_singleton] at h
        exact h ▸ hsome
      | some e =>
        simp only [attemptedKeys, hat, hf] at h
        rcases List.mem_cons.mp h with h1 | h2
        · exact h1 ▸ hsome
        · exact ih pk h2

theorem tryProviders_all_fail (fails : LLMClient → Option String)
    (llm_block : String → Option LlmConfig) :
    ∀ (l : List String) (last_error : Option String),
      (∀ pk ∈ l, ∀ c, attemptOf llm_block pk = some c → fails c ≠ none) →
      tryProviders fails llm_block l last_error =
        .error (allFailedMsg (finalError fails llm_block l last_error)) := by
  intro l
  induction l with
  | nil => intro last_error _; simp [tryProviders, finalError]
  | cons pk rest ih =>
    intro last_error hall
    cases h : attemptOf llm_block pk with
    | none =>
      simp only [tryProviders, finalError, h]
      exact ih last_error (fun pk2 h2 => hall pk2 (List.mem_cons_of_mem pk h2))
    | some cl =>
      cases hf : fails cl with
      | none =>
        exact absurd hf (hall pk (List.mem_cons_self pk rest) cl h)
      | some e =>
        simp only [tryProviders, finalError, h, hf]
        exact ih (some e) (fun pk2 h2 => hall pk2 (List.mem_cons_of_mem pk h2))

theorem tryProviders_error_shape (fails : LLMClient → Option String)
    (llm_block : String → Option LlmConfig) :
    ∀ (l : List String) (last_error : Option String) (m : String),
      tryProviders fails llm_block l last_error = .error m →
      ∃ x, m = allFailedMsg x := by
  intro l
  induction l with
  | nil => intro last_error m h; simp [tryProviders] at h; exact ⟨last_error, h.symm⟩
  | cons pk rest ih =>
    intro last_error m h
    cases hat : attemptOf llm_block pk with
    | none =>
      simp only [tryProviders, hat] at h
      exact ih last_error m h
    | some cl =>
      cases hf : fails cl with
      | none => simp [tryProviders, hat, hf] at h
      | some e =>
        simp only [tryProviders, hat, hf] at h
        exact ih (some e) m h

theorem allFailedMsg_ne_noKeys (x : Option String) :
    allFailedMsg x ≠ "No LLM API keys configured" := by
  intro h
  have hl := congrArg String.length h
  simp only [allFailedMsg, String.length_append] at hl
  have h1 : ("Could not load any LLM provider. Last error: ").length = 45 := rfl
  have h2 : ("No LLM API keys configured").length = 26 := rfl
  omega

theorem provider_priority_sublist (keys : ApiKeys) :
    List.Sublist (provider_priority keys) ["openai", "google", "groq"] := by
  cases hO : truthy keys.OPENAI_API_KEY <;> cases hG : truthy keys.GOOGLE_API_KEY <;>
    cases hQ : truthy keys.GROQ_API_KEY <;> simp [provider_priority, hO, hG, hQ]

theorem provider_priority_nodup (keys : ApiKeys) :
    (provider_priority keys).Nodup := by
  cases hO : truthy keys.OPENAI_API_KEY <;> cases hG : truthy keys.GOOGLE_API_KEY <;>
    cases hQ : truthy keys.GROQ_API_KEY <;> simp [provider_priority, hO, hG, hQ]

theorem provider_priority_credentials (keys : ApiKeys) :
    ∀ pk ∈ provider_priority keys, truthy (credentialFor keys pk) = true := by
  intro pk hpk
  cases hO : truthy keys.OPENAI_API_KEY <;> cases hG : truthy keys.GOOGLE_API_KEY <;>
    cases hQ : truthy keys.GROQ_API_KEY <;>
    simp [provider_priority, hO, hG, hQ] at hpk <;>
    rcases hpk with rfl | rfl | rfl <;> simp [credentialFor, hO, hG, hQ]

theorem provider_priority_ne_nil_of_available (keys : ApiKeys)
    (h : availableProviders keys ≠ []) : provider_priority keys ≠ [] := by
  cases hO : truthy keys.OPENAI_API_KEY <;> cases hG : truthy keys.GOOGLE_API_KEY <;>
    cases hQ : truthy keys.GROQ_API_KEY <;>
    simp [availableProviders, hO, hG, hQ] at h <;>
    simp [provider_priority, hO, hG, hQ]

end ModelLoader

/-! ## Claim theorems: model loader -/

open ModelLoader

/-- C1: for every credential set, failure oracle and config block,
`load_llm()` attempts providers in the fixed priority order OpenAI, Google,
Groq: the candidate list is an in-order sublist of that fixed order
restricted to truthy credentials, every actually attempted candidate also
has a config entry, and the result is `.ok c` exactly when `c` is the first
successfully constructed client. The candidate list is traversed at most
once and no provider is retried: the attempted candidates form an in-order
sublist of the duplicate-free priority list. In particular, when both
OpenAI and Google credentials are present (with config entries) and the
OpenAI construction succeeds, the result is the OpenAI-backed client. -/
theorem load_llm_priority_first_success
    (fails : LLMClient → Option String) (llm_block : String → Option LlmConfig)
    (keys : ApiKeys) :
    List.Sublist (provider_priority keys) ["openai", "google", "groq"]
    ∧ (∀ pk ∈ provider_priority keys, truthy (credentialFor keys pk) = true)
    ∧ (∀ pk ∈ attemptedKeys fails llm_block (provider_priority keys),
        (llm_block pk).isSome = true)
    ∧ (provider_priority keys).Nodup
    ∧ List.Sublist (attemptedKeys fails llm_block (provider_priority keys))
        (provider_priority keys)
    ∧ (∀ c, load_llm fails llm_block keys = .ok c ↔
        firstSuccess fails llm_block (provider_priority keys) = some c)
    ∧ (∀ cfgO : LlmConfig,
        truthy keys.OPENAI_API_KEY = true → truthy keys.GOOGLE_API_KEY = true →
        llm_block "openai" = some cfgO → cfgO.provider = some "openai" →
        fails (.chatOpenAI cfgO.model_name (cfgO.temperature.getD (2/10))
          (cfgO.max_output_tokens.getD 2048)) = none →
        load_llm fails llm_block keys =
          .ok (.chatOpenAI cfgO.model_name (cfgO.temperature.getD (2/10))
            (cfgO.max_output_tokens.getD 2048))) := by
  refine ⟨provider_priority_sublist keys, provider_priority_credentials keys,
    fun pk hpk => attemptedKeys_mem_config fails llm_block _ pk hpk,
    provider_priority_nodup keys, attemptedKeys_sublist fails llm_block _, ?_, ?_⟩
  · intro c
    by_cases hp : provider_priority keys = []
    · unfold load_llm
      rw [if_pos hp, hp]
      simp [firstSuccess]
    · unfold load_llm
      rw [if_neg hp]
      exact tryProviders_ok_iff fails llm_block _ none c
  · intro cfgO hO hG hcfgO hprovO hok
    have hprio : provider_priority keys =
        "openai" :: "google" :: (if truthy keys.GROQ_API_KEY then ["groq"] else []) := by
      simp [provider_priority, hO, hG]
    have hne : provider_priority keys ≠ [] := by rw [hprio]; simp
    unfold load_llm
    rw [if_neg hne, hprio]
    simp [tryProviders, attemptOf, hcfgO, mkAttempt, hprovO, hok]

/-- C1 witness: with OpenAI and Google credentials and all three config
entries present, and every constructor succeeding, `load_llm` returns the
OpenAI-backed client (instantiating the in-particular conjunct). -/
theorem load_llm_priority_first_success_witness :
    load_llm wFailsNone wBlock wKeys =
      .ok (.chatOpenAI (some "gpt-4o-mini") (2/10) 2048) :=
  (load_llm_priority_first_success wFailsNone wBlock wKeys).2.2.2.2.2.2 wCfgO
    (by decide) (by decide) (by decide) (by decide) rfl

/-- C2: a construction failure for one candidate is locally recovered: if
the OpenAI construction fails while a Google credential (with config entry)
is present and the Google construction succeeds, `load_llm()` returns the
Google-backed client instead of propagating the error. -/
theorem load_llm_fallback_to_google
    (fails : LLMClient → Option String) (llm_block : String → Option LlmConfig)
    (keys : ApiKeys) (cfgO cfgG : LlmConfig) (e : String)
    (hO : truthy keys.OPENAI_API_KEY = true) (hG : truthy keys.GOOGLE_API_KEY = true)
    (hcfgO : llm_block "openai" = some cfgO) (hprovO : cfgO.provider = some "openai")
    (hcfgG : llm_block "google" = some cfgG) (hprovG : cfgG.provider = some "google")
    (hfailO : fails (.chatOpenAI cfgO.model_name (cfgO.temperature.getD (2/10))
      (cfgO.max_output_tokens.getD 2048)) = some e)
    (hokG : fails (.chatGoogleGenerativeAI cfgG.model_name (cfgG.temperature.getD (2/10))
      (cfgG.max_output_tokens.getD 2048)) = none) :
    load_llm fails llm_block keys =
      .ok (.chatGoogleGenerativeAI cfgG.model_name (cfgG.temperature.getD (2/10))
        (cfgG.max_output_tokens.getD 2048)) := by
  have hprio : provider_priority keys =
      "openai" :: "google" :: (if truthy keys.GROQ_API_KEY then ["groq"] else []) := by
    simp [provider_priority, hO, hG]
  have hne : provider_priority keys ≠ [] := by rw [hprio]; simp
  unfold load_llm
  rw [if_neg hne, hprio]
  simp [tryProviders, attemptOf, hcfgO, hcfgG, mkAttempt, hprovO, hprovG, hfailO, hokG]

/-- C2 witness: with OpenAI and Google credentials present and a failure
oracle that makes only the ChatOpenAI constructor raise, `load_llm` falls
through to the Google-backed client. -/
theorem load_llm_fallback_to_google_witness :
    load_llm wFailsOpenAI wBlock wKeys =
      .ok (.chatGoogleGenerativeAI (some "gemini-2.0-flash") (2/10) 2048) :=
  load_llm_fallback_to_google wFailsOpenAI wBlock wKeys wCfgO wCfgG "invalid model"
    (by decide) (by decide) (by decide) (by decide) (by decide) (by decide) rfl rfl

/-- C3: `load_llm()` raises exactly when no candidate can be constructed:
with an empty candidate list it fails with the "no providers configured"
message; when candidates exist but every attempted construction fails, it
fails with a `DocumentPortalException` wrapping the last encountered error
(`finalError` is the loop's `last_error` after the traversal); and an error
result is equivalent to no candidate construction succeeding. -/
theorem load_llm_exhaustion
    (fails : LLMClient → Option String) (llm_block : String → Option LlmConfig)
    (keys : ApiKeys) :
    (provider_priority keys = [] →
      load_llm fails llm_block keys = .error "No LLM API keys configured")
    ∧ (provider_priority keys ≠ [] →
        (∀ pk ∈ provider_priority keys, ∀ c, attemptOf llm_block pk = some c →
          fails c ≠ none) →
        load_llm fails llm_block keys =
          .error (allFailedMsg (finalError fails llm_block (provider_priority keys) none)))
    ∧ ((∃ m, load_llm fails llm_block keys = .error m) ↔
        firstSuccess fails llm_block (provider_priority keys) = none) := by
  refine ⟨?_, ?_, ?_⟩
  · intro h
    unfold load_llm
    rw [if_pos h]
  · intro hne hall
    unfold load_llm
    rw [if_neg hne]
    exact tryProviders_all_fail fails llm_block _ none hall
  · constructor
    · rintro ⟨m, hm⟩
      cases hfs : firstSuccess fails llm_block (provider_priority keys) with
      | none => rfl
      | some c =>
        by_cases hp : provider_priority keys = []
        · rw [hp] at hfs; simp [firstSuccess] at hfs
        · have := (tryProviders_ok_iff fails llm_block (provider_priority keys) none c).mpr hfs
          unfold load_llm at hm
          rw [if_neg hp] at hm
          rw [this] at hm
          exact Except.noConfusion hm
    · intro hfs
      by_cases hp : provider_priority keys = []
      · exact ⟨"No LLM API keys configured", by unfold load_llm; rw [if_pos hp]⟩
      · unfold load_llm
        rw [if_neg hp]
        cases he : tryProviders fails llm_block (provider_priority keys) none with
        | error m => exact ⟨m, rfl⟩
        | ok c =>
          have := (tryProviders_ok_iff fails llm_block (provider_priority keys) none c).mp he
          rw [this] at hfs
          exact Option.noConfusion hfs

/-- C3 witness: with only a Groq credential and every construction failing
with message "boom", `load_llm` fails with the exhaustion message wrapping
that last error. -/
theorem load_llm_exhaustion_witness :
    load_llm wFailsAll wBlock wKeysGroq =
      .error (allFailedMsg (finalError wFailsAll wBlock
        (provider_priority wKeysGroq) none)) :=
  (load_llm_exhaustion wFailsAll wBlock wKeysGroq).2.1 (by decide)
    (by intro pk hpk c hc; simp [wFailsAll])

/-- C4: `validate_environment()` succeeds for every credential set with at
least one non-empty credential among GOOGLE_API_KEY (or its alias
GEMINI_API_KEY), GROQ_API_KEY, OPENAI_API_KEY, recording a non-empty set of
available providers; for the empty credential set it fails with a
`DocumentPortalException` whose message names the three variables that
would satisfy the requirement; and every success records exactly the
api_keys mapping read from the environment. -/
theorem validate_env_spec (env : Env) :
    ((truthy env.GOOGLE_API_KEY = true ∨ truthy env.GEMINI_API_KEY = true ∨
      truthy env.GROQ_API_KEY = true ∨ truthy env.OPENAI_API_KEY = true) →
      validate_env env = .ok (mkApiKeys env) ∧
        availableProviders (mkApiKeys env) ≠ [])
    ∧ (env = wEnvEmpty →
        validate_env env = .error noKeysMsg ∧
        noKeysMsg =
          "No LLM API keys configured. Please set at least one: GOOGLE_API_KEY, GROQ_API_KEY, or OPENAI_API_KEY")
    ∧ (∀ keys, validate_env env = .ok keys → keys = mkApiKeys env) := by
  refine ⟨?_, ?_, ?_⟩
  · intro h
    have havail : availableProviders (mkApiKeys env) ≠ [] := by
      rcases h with h | h | h | h <;>
        simp [availableProviders, mkApiKeys, pyOr, truthy] at * <;>
        cases hG : truthy env.GOOGLE_API_KEY <;>
        simp_all [availableProviders, mkApiKeys, pyOr, truthy]
    exact ⟨by unfold validate_env; rw [if_neg havail], havail⟩
  · rintro rfl
    exact ⟨rfl, rfl⟩
  · intro keys h
    unfold validate_env at h
    by_cases havail : availableProviders (mkApiKeys env) = []
    · rw [if_pos havail] at h; exact Except.noConfusion h
    · rw [if_neg havail] at h
      exact (Except.ok.injEq _ _ ▸ h).symm

/-- C4 witness: an environment holding only the GEMINI_API_KEY alias passes
validation with a non-empty provider set, and the empty environment fails
with the message naming the three variables. -/
theorem validate_env_spec_witness :
    (validate_env wEnvGoogle = .ok (mkApiKeys wEnvGoogle) ∧
      availableProviders (mkApiKeys wEnvGoogle) ≠ []) ∧
    validate_env wEnvEmpty = .error noKeysMsg :=
  ⟨(validate_env_spec wEnvGoogle).1 (Or.inr (Or.inl rfl)),
   ((validate_env_spec wEnvEmpty).2.1 rfl).1⟩

/-- C5: `load_embeddings()` fails whenever the Google/Gemini credential is
absent, regardless of the other credentials, with a message reporting the
missing key; when the Google credential is present it returns an embedding
client configured with the config model name; and a construction error of
the underlying client is caught and re-raised carrying the original
message. -/
theorem load_embeddings_spec (constructFails : Embeddings → Option String)
    (model_name : String) (keys : ApiKeys) :
    (truthy keys.GOOGLE_API_KEY = false →
      load_embeddings constructFails model_name keys =
        .error ("Failed to load embedding model: " ++
          "GOOGLE_API_KEY not found. Embeddings require Google Gemini API."))
    ∧ (truthy keys.GOOGLE_API_KEY = true →
        constructFails { model := model_name } = none →
        load_embeddings constructFails model_name keys = .ok { model := model_name })
    ∧ (∀ e, truthy keys.GOOGLE_API_KEY = true →
        constructFails { model := model_name } = some e →
        load_embeddings constructFails model_name keys =
          .error ("Failed to load embedding model: " ++ e)) := by
  refine ⟨?_, ?_, ?_⟩
  · intro h
    unfold load_embeddings
    rw [if_pos h]
  · intro h hc
    unfold load_embeddings
    rw [if_neg (by rw [h]; simp), hc]
  · intro e h hc
    unfold load_embeddings
    rw [if_neg (by rw [h]; simp), hc]

/-- C5 witness: with only a Groq credential `load_embeddings` fails with
the missing-key message; with a Google credential and a succeeding
constructor it returns the client holding the configured model name. -/
theorem load_embeddings_spec_witness :
    load_embeddings (fun _ => none) "models/embedding-001" wKeysGroq =
      .error ("Failed to load embedding model: " ++
        "GOOGLE_API_KEY not found. Embeddings require Google Gemini API.") ∧
    load_embeddings (fun _ => none) "models/embedding-001" wKeys =
      .ok { model := "models/embedding-001" } :=
  ⟨(load_embeddings_spec (fun _ => none) "models/embedding-001" wKeysGroq).1 (by decide),
   (load_embeddings_spec (fun _ => none) "models/embedding-001" wKeys).2.1 (by decide) rfl⟩

/-- C10 (implicit): every successfully constructed `ModelLoader` — i.e.
every environment on which `_validate_env` returns — yields an api_keys
mapping with a non-empty available-provider set, hence in `load_llm` the
candidate list is non-empty and the `raise ValueError("No LLM API keys
configured")` branch is unreachable: `load_llm` always proceeds into the
provider loop. -/
theorem validated_loader_candidates_nonempty (env : Env) (keys : ApiKeys)
    (h : validate_env env = .ok keys) :
    availableProviders keys ≠ []
    ∧ provider_priority keys ≠ []
    ∧ (∀ fails llm_block, load_llm fails llm_block keys =
        tryProviders fails llm_block (provider_priority keys) none)
    ∧ (∀ fails llm_block,
        load_llm fails llm_block keys ≠ .error "No LLM API keys configured") := by
  have hkeys : keys = mkApiKeys env := by
    unfold validate_env at h
    by_cases havail : availableProviders (mkApiKeys env) = []
    · rw [if_pos havail] at h; exact Except.noConfusion h
    · rw [if_neg havail] at h
      exact (Except.ok.injEq _ _ ▸ h).symm
  have havail : availableProviders keys ≠ [] := by
    intro hempty
    unfold validate_env at h
    rw [hkeys] at hempty
    rw [if_pos hempty] at h
    exact Except.noConfusion h
  have hprio : provider_priority keys ≠ [] :=
    provider_priority_ne_nil_of_available keys havail
  refine ⟨havail, hprio, ?_, ?_⟩
  · intro fails llm_block
    unfold load_llm
    rw [if_neg hprio]
  · intro fails llm_block hbad
    unfold load_llm at hbad
    rw [if_neg hprio] at hbad
    rcases tryProviders_error_shape fails llm_block _ none _ hbad with ⟨x, hx⟩
    exact allFailedMsg_ne_noKeys x hx.symm

/-- C10 witness: the Gemini-only environment validates, and the resulting
keys give a non-empty candidate list. -/
theorem validated_loader_candidates_nonempty_witness :
    provider_priority (mkApiKeys wEnvGoogle) ≠ [] :=
  (validated_loader_candidates_nonempty wEnvGoogle (mkApiKeys wEnvGoogle)
    rfl).2.1

/-! ## Helper lemmas about the ingestion routine -/

theorem ingest_success_eq (env : Env) (loadPdf : String → Except String (List Doc))
    (embedFails : Embeddings → Option String) (mn : String) (faissFail : Bool)
    (docs_dir : String) (cs co : Nat) (fs : FS) (s : Summary) (fs' : FS)
    (h : ingest_documents env loadPdf embedFails mn faissFail docs_dir cs co fs =
      (.completed s, fs')) :
    s = { pdfCount := fs.pdfFiles.length,
          totalPages := (loadAll loadPdf docs_dir fs.pdfFiles).length,
          chunkCount :=
            (split_documents cs co (loadAll loadPdf docs_dir fs.pdfFiles)).length }
    ∧ fs' = { fs with
              vsDirExists := true
              storedIndex := some (fs.storedIndex.getD [] ++
                split_documents cs co (loadAll loadPdf docs_dir fs.pdfFiles)) } := by
  simp only [ingest_documents] at h
  split at h
  · exact absurd h (by simp)
  split at h
  · exact absurd h (by simp)
  split at h
  · exact absurd h (by simp)
  split at h
  · exact absurd h (by simp)
  split at h
  · exact absurd h (by simp)
  split at h
  · exact absurd h (by simp)
  rw [Prod.mk.injEq] at h
  obtain ⟨hs, hfs⟩ := h
  injection hs with hs
  refine ⟨hs.symm, ?_⟩
  rw [← hfs]
  cases hst : fs.storedIndex <;> simp [hst]

theorem loadAll_append (loadPdf : String → Except String (List Doc))
    (docs_dir : String) (l1 l2 : List String) :
    loadAll loadPdf docs_dir (l1 ++ l2) =
      loadAll loadPdf docs_dir l1 ++ loadAll loadPdf docs_dir l2 := by
  induction l1 with
  | nil => simp [loadAll]
  | cons f rest ih => simp [loadAll, ih]

theorem loadAll_all_fail (loadPdf : String → Except String (List Doc))
    (docs_dir : String) :
    ∀ l : List String, (∀ f ∈ l, ∃ e, loadPdf (docs_dir ++ "/" ++ f) = .error e) →
      loadAll loadPdf docs_dir l = [] := by
  intro l
  induction l with
  | nil => intro _; simp [loadAll]
  | cons f rest ih =>
    intro hall
    obtain ⟨e, he⟩ := hall f (List.mem_cons_self f rest)
    simp only [loadAll, he]
    simpa using ih (fun g hg => hall g (List.mem_cons_of_mem f hg))

theorem loadAll_mem (loadPdf : String → Except String (List Doc))
    (docs_dir : String) :
    ∀ (l : List String) (f : String), f ∈ l →
      ∀ ds, loadPdf (docs_dir ++ "/" ++ f) = .ok ds →
      ∀ d ∈ tagDocs (docs_dir ++ "/" ++ f) f ds, d ∈ loadAll loadPdf docs_dir l := by
  intro l
  induction l with
  | nil => intro f hf; simp at hf
  | cons f0 rest ih =>
    intro f hf ds hds d hd
    rcases List.mem_cons.mp hf with rfl | hmem
    · simp only [loadAll, hds]
      exact List.mem_append_left _ hd
    · simp only [loadAll]
      exact List.mem_append_right _ (ih f hmem ds hds d hd)

theorem tagDocs_meta (path fname : String) (ds : List Doc) :
    ∀ d ∈ tagDocs path fname ds,
      d.source_file = some fname ∧ d.source_path = some path := by
  intro d hd
  unfold tagDocs at hd
  rw [List.mem_map] at hd
  obtain ⟨d0, _, rfl⟩ := hd
  exact ⟨rfl, rfl⟩

theorem tagDocs_contents (path fname : String) (ds : List Doc) :
    (tagDocs path fname ds).map Doc.content = ds.map Doc.content := by
  unfold tagDocs
  rw [List.map_map]
  rfl

theorem splitTextFuel_length_pos (size step : Nat) :
    ∀ (fuel : Nat) (t : List Char), 0 < (splitTextFuel size step fuel t).length := by
  intro fuel
  cases fuel with
  | zero => intro t; simp [splitTextFuel]
  | succ n =>
    intro t
    simp only [splitTextFuel]
    split <;> simp

theorem splitTextFuel_count_le :
    ∀ (fuel : Nat) (t : List Char), t.length ≤ 600 * fuel + 800 →
      (splitTextFuel 800 600 fuel t).length ≤ t.length / 600 + 1 := by
  intro fuel
  induction fuel with
  | zero => intro t ht; simp [splitTextFuel]
  | succ n ih =>
    intro t ht
    by_cases hle : t.length ≤ 800
    · simp [splitTextFuel, hle]
    · have h1 : splitTextFuel 800 600 (n + 1) t =
          t.take 800 :: splitTextFuel 800 600 n (t.drop 600) := by
        simp [splitTextFuel, hle]
      rw [h1, List.length_cons]
      have hlen : (t.drop 600).length = t.length - 600 := by simp
      have hrec := ih (t.drop 600) (by rw [hlen]; omega)
      rw [hlen] at hrec
      omega

theorem splitText_count_le (t : List Char) :
    (splitText 800 200 t).length ≤ t.length / 600 + 1 := by
  have h : splitText 800 200 t = splitTextFuel 800 600 t.length t := rfl
  rw [h]
  exact splitTextFuel_count_le t.length t (by omega)

theorem splitText_length_pos (size overlap : Nat) (t : List Char) :
    0 < (splitText size overlap t).length :=
  splitTextFuel_length_pos size (size - overlap) t.length t

theorem split_documents_length (size overlap : Nat) (ds : List Doc) :
    (split_documents size overlap ds).length =
      (ds.map (fun d => (splitText size overlap d.content).length)).sum := by
  unfold split_documents
  simp only [List.length_flatMap, Function.comp_def, List.length_map]

theorem split_documents_meta (size overlap : Nat) (ds : List Doc) (c : Doc)
    (hc : c ∈ split_documents size overlap ds) :
    ∃ d ∈ ds, c.source_file = d.source_file ∧ c.source_path = d.source_path := by
  unfold split_documents at hc
  rw [List.mem_flatMap] at hc
  obtain ⟨d, hd, hcd⟩ := hc
  rw [List.mem_map] at hcd
  obtain ⟨t, _, rfl⟩ := hcd
  exact ⟨d, hd, rfl, rfl⟩

theorem tagDocs_map_content (path fname : String) (size overlap : Nat)
    (ds : List Doc) :
    (tagDocs path fname ds).map (fun d => (splitText size overlap d.content).length) =
      ds.map (fun d => (splitText size overlap d.content).length) := by
  unfold tagDocs
  rw [List.map_map]
  rfl

/-! ## Claim theorems: ingestion routine -/

/-- C6: when the ingestion routine completes, the persisted index at the
vector store path is the freshly built index when no index file existed
before the run, and the previously stored index with the new chunk records
appended when one existed; in both cases the stored value is replaced by
the whole resulting index. -/
theorem ingest_index_lifecycle (env : Env)
    (loadPdf : String → Except String (List Doc))
    (embedFails : Embeddings → Option String) (mn : String) (faissFail : Bool)
    (docs_dir : String) (cs co : Nat) (fs : FS) (s : Summary) (fs' : FS)
    (h : ingest_documents env loadPdf embedFails mn faissFail docs_dir cs co fs =
      (.completed s, fs')) :
    (fs.storedIndex = none →
      fs'.storedIndex =
        some (split_documents cs co (loadAll loadPdf docs_dir fs.pdfFiles)))
    ∧ (∀ existing, fs.storedIndex = some existing →
        fs'.storedIndex = some (existing ++
          split_documents cs co (loadAll loadPdf docs_dir fs.pdfFiles))) := by
  obtain ⟨-, hfs⟩ :=
    ingest_success_eq env loadPdf embedFails mn faissFail docs_dir cs co fs s fs' h
  constructor
  · intro hnone
    rw [hfs]
    simp [hnone]
  · intro existing hex
    rw [hfs]
    simp [hex]

/-- C6 witness: a run over an empty store persists exactly the freshly
split chunk records. -/
theorem ingest_index_lifecycle_witness :
    smallOut.storedIndex = some (split_documents 800 200
      (loadAll (fun _ => .ok [smallDoc]) "data/rag_docs" smallFS.pdfFiles)) :=
  (ingest_index_lifecycle cxEnv (fun _ => .ok [smallDoc]) (fun _ => none) "m"
    false "data/rag_docs" 800 200 smallFS (Summary.mk 1 1 1) smallOut rfl).1 rfl

/-- C7: when the source directory does not exist or holds no PDF file, the
ingestion routine terminates the process with exit code 1 (non-zero) and
leaves the filesystem untouched: no index is created and the vector store
path is not even created. -/
theorem ingest_failfast_discovery (env : Env)
    (loadPdf : String → Except String (List Doc))
    (embedFails : Embeddings → Option String) (mn : String) (faissFail : Bool)
    (docs_dir : String) (cs co : Nat) (fs : FS)
    (h : fs.docsDirExists = false ∨ fs.pdfFiles = []) :
    ingest_documents env loadPdf embedFails mn faissFail docs_dir cs co fs =
      (.exited 1, fs)
    ∧ (ingest_documents env loadPdf embedFails mn faissFail docs_dir cs co
        fs).2.storedIndex = fs.storedIndex
    ∧ (ingest_documents env loadPdf embedFails mn faissFail docs_dir cs co
        fs).2.vsDirExists = fs.vsDirExists
    ∧ (1 : Nat) ≠ 0 := by
  have hmain : ingest_documents env loadPdf embedFails mn faissFail docs_dir cs co fs =
      (.exited 1, fs) := by
    unfold ingest_documents
    by_cases hk : (truthy env.GOOGLE_API_KEY || truthy env.GEMINI_API_KEY) = false
    · rw [if_pos hk]
    · rw [if_neg hk]
      rcases h with h | h
      · rw [if_pos h]
      · by_cases hd : fs.docsDirExists = false
        · rw [if_pos hd]
        · rw [if_neg hd, if_pos h]
  exact ⟨hmain, by rw [hmain], by rw [hmain], by norm_num⟩

/-- C7 witness: with a missing source directory the run exits with code 1
and the filesystem is returned unchanged. -/
theorem ingest_failfast_discovery_witness :
    ingest_documents cxEnv (fun _ => .error "unused") (fun _ => none) "m" false
      "data/rag_docs" 800 200 noDirFS = (.exited 1, noDirFS) :=
  (ingest_failfast_discovery cxEnv (fun _ => .error "unused") (fun _ => none)
    "m" false "data/rag_docs" 800 200 noDirFS (Or.inl rfl)).1

/-- C8: a failure loading an individual PDF is skipped — removing a failing
file from the list does not change the loaded documents, and every document
of every successfully loading file is retained — and when no file loads
successfully the routine never completes (it terminates the process). -/
theorem ingest_partial_failure (env : Env)
    (loadPdf : String → Except String (List Doc))
    (embedFails : Embeddings → Option String) (mn : String) (faissFail : Bool)
    (docs_dir : String) (cs co : Nat) (fs : FS) :
    (∀ (pre post : List String) (f e : String),
      loadPdf (docs_dir ++ "/" ++ f) = .error e →
      loadAll loadPdf docs_dir (pre ++ f :: post) =
        loadAll loadPdf docs_dir (pre ++ post))
    ∧ (∀ f ∈ fs.pdfFiles, ∀ ds, loadPdf (docs_dir ++ "/" ++ f) = .ok ds →
        ∀ d ∈ tagDocs (docs_dir ++ "/" ++ f) f ds,
          d ∈ loadAll loadPdf docs_dir fs.pdfFiles)
    ∧ ((∀ f ∈ fs.pdfFiles, ∃ e, loadPdf (docs_dir ++ "/" ++ f) = .error e) →
        ∀ (s : Summary) (fs' : FS),
          ingest_documents env loadPdf embedFails mn faissFail docs_dir cs co fs ≠
            (.completed s, fs')) := by
  refine ⟨?_,
    fun f hf ds hds d hd => loadAll_mem loadPdf docs_dir fs.pdfFiles f hf ds hds d hd,
    ?_⟩
  · intro pre post f e he
    rw [loadAll_append, loadAll_append]
    simp only [loadAll, he]
    simp
  · intro hall s fs' h
    have hempty := loadAll_all_fail loadPdf docs_dir fs.pdfFiles hall
    simp only [ingest_documents] at h
    repeat' split at h
    all_goals simp_all

/-- C8 witness: when the single file of the directory fails to parse, the
run does not complete. -/
theorem ingest_partial_failure_witness :
    ingest_documents cxEnv (fun _ => .error "corrupt") (fun _ => none) "m" false
      "data/rag_docs" 800 200 smallFS ≠
      (.completed (Summary.mk 1 1 1), smallFS) :=
  (ingest_partial_failure cxEnv (fun _ => .error "corrupt") (fun _ => none) "m"
    false "data/rag_docs" 800 200 smallFS).2.2
    (fun _ _ => ⟨"corrupt", rfl⟩) (Summary.mk 1 1 1) smallFS

set_option maxRecDepth 20000 in
/-- C9 counterexample: one 3-page PDF with pages of 801, 801 and 100
characters (1702 characters in total) produces 5 chunk records at the
default chunk size 800 / overlap 200, while the claimed bound
ceil(1702 / 600) + 1 allows only 4. -/
theorem ingest_chunk_bound_counterexample :
    ([cxPageA, cxPageA, cxPageB].map (fun d => d.content.length)).sum = 1702
    ∧ (ingest_documents cxEnv (fun _ => .ok [cxPageA, cxPageA, cxPageB])
        (fun _ => none) "models/embedding-001" false "data/rag_docs" 800 200
        cxFS).1 = .completed (Summary.mk 1 3 5)
    ∧ ¬ (5 ≤ (1702 + 600 - 1) / 600 + 1) := by
  refine ⟨by decide, by rfl, by decide⟩

/-- C9 (amended): every document record loaded from the single input PDF is
tagged with `source_file` equal to the file name and `source_path` equal to
its path before splitting, every chunk record carries that `source_file`,
and a completed run over one 3-page PDF at chunk size 800 / overlap 200
produces at least 1 and at most ceil(total_chars / 600) + 3 chunk records
(one extra chunk per page rather than one overall). -/
theorem ingest_three_page_chunk_bounds (env : Env)
    (loadPdf : String → Except String (List Doc))
    (embedFails : Embeddings → Option String) (mn : String) (faissFail : Bool)
    (docs_dir f : String) (pages : List Doc) (fs : FS) (s : Summary) (fs' : FS)
    (hfiles : fs.pdfFiles = [f])
    (hload : loadPdf (docs_dir ++ "/" ++ f) = .ok pages)
    (hpages : pages.length = 3)
    (h : ingest_documents env loadPdf embedFails mn faissFail docs_dir 800 200 fs =
      (.completed s, fs')) :
    (∀ d ∈ loadAll loadPdf docs_dir fs.pdfFiles,
      d.source_file = some f ∧ d.source_path = some (docs_dir ++ "/" ++ f))
    ∧ (∀ c ∈ split_documents 800 200 (loadAll loadPdf docs_dir fs.pdfFiles),
        c.source_file = some f)
    ∧ 1 ≤ s.chunkCount
    ∧ s.chunkCount ≤
        ((pages.map (fun d => d.content.length)).sum + 600 - 1) / 600 + 3 := by
  have hLA : loadAll loadPdf docs_dir fs.pdfFiles =
      tagDocs (docs_dir ++ "/" ++ f) f pages := by
    rw [hfiles]
    simp [loadAll, hload]
  obtain ⟨hs, -⟩ :=
    ingest_success_eq env loadPdf embedFails mn faissFail docs_dir 800 200 fs s fs' h
  have hmeta : ∀ d ∈ loadAll loadPdf docs_dir fs.pdfFiles,
      d.source_file = some f ∧ d.source_path = some (docs_dir ++ "/" ++ f) := by
    intro d hd
    rw [hLA] at hd
    exact tagDocs_meta _ _ _ d hd
  have hcc : s.chunkCount =
      (pages.map (fun d => (splitText 800 200 d.content).length)).sum := by
    rw [hs]
    show (split_documents 800 200 (loadAll loadPdf docs_dir fs.pdfFiles)).length = _
    rw [split_documents_length, hLA, tagDocs_map_content]
  obtain ⟨p1, p2, p3, rfl⟩ := List.length_eq_three.mp hpages
  refine ⟨hmeta, ?_, ?_, ?_⟩
  · intro c hc
    obtain ⟨d, hd, hcf, -⟩ := split_documents_meta 800 200 _ c hc
    rw [hcf]
    exact (hmeta d hd).1
  · rw [hcc]
    have h1 := splitText_length_pos 800 200 p1.content
    simp only [List.map_cons, List.map_nil, List.sum_cons, List.sum_nil]
    omega
  · rw [hcc]
    have h1 := splitText_count_le p1.content
    have h2 := splitText_count_le p2.content
    have h3 := splitText_count_le p3.content
    simp only [List.map_cons, List.map_nil, List.sum_cons, List.sum_nil]
    omega

/-- C9 (amended) witness: a completed run over one 3-page PDF of tiny pages
produces 3 chunks, within the amended bounds. -/
theorem ingest_three_page_chunk_bounds_witness :
    1 ≤ (Summary.mk 1 3 3).chunkCount
    ∧ (Summary.mk 1 3 3).chunkCount ≤
        (([smallDoc, smallDoc, smallDoc].map (fun d => d.content.length)).sum +
          600 - 1) / 600 + 3 :=
  ⟨(ingest_three_page_chunk_bounds cxEnv (fun _ => .ok [smallDoc, smallDoc, smallDoc])
      (fun _ => none) "m" false "data/rag_docs" "a.pdf"
      [smallDoc, smallDoc, smallDoc] smallFS (Summary.mk 1 3 3) smallOut3
      rfl rfl rfl rfl).2.2.1,
   (ingest_three_page_chunk_bounds cxEnv (fun _ => .ok [smallDoc, smallDoc, smallDoc])
      (fun _ => none) "m" false "data/rag_docs" "a.pdf"
      [smallDoc, smallDoc, smallDoc] smallFS (Summary.mk 1 3 3) smallOut3
      rfl rfl rfl rfl).2.2.2⟩

end RaAI
